import Mathlib

/-!
Verification of the task-scheduler-service core against its specification.

The definitions below are a shallow embedding of the TypeScript source:
timestamps are naturals (milliseconds since epoch), Redis sorted sets are
association lists from members to scores, and each async method becomes a
pure state-transformer.  The second (corrected) revision of QueueManager in
the tree is embedded: it is the revision that adds the priority offset and
that carries removeFromDLQ, used by DeadLetterService.
-/

namespace TaskScheduler

/-- Job priorities, from the Prisma JobPriority enum. -/
inductive JobPriority where
  | CRITICAL
  | HIGH
  | NORMAL
  | LOW
deriving DecidableEq, Repr

/-- Job statuses, from the Prisma JobStatus enum. -/
inductive JobStatus where
  | PENDING
  | QUEUED
  | PROCESSING
  | COMPLETED
  | FAILED
  | RETRYING
  | CANCELLED
deriving DecidableEq, Repr

/-- PRIORITY_SCORES from QueueManager.ts: priority offset added to the
enqueue timestamp (smaller score is served first). -/
def PRIORITY_SCORES : JobPriority → Nat
  | .CRITICAL => 0
  | .HIGH => 1000000
  | .NORMAL => 2000000
  | .LOW => 3000000

/-- QueueManager.calculateScore (corrected revision): score = ts + offset. -/
def calculateScore (priority : JobPriority) (ts : Nat) : Nat :=
  ts + PRIORITY_SCORES priority

/-- Value stored in the processing hash by markProcessing. -/
structure ProcEntry where
  workerId : String
  startedAt : Nat
deriving DecidableEq, Repr

/-- Structured member of the dead-letter sorted set (the source stores it as
a JSON string with these fields). -/
structure DlqMember where
  jobId : String
  reason : String
  failedAt : Nat
deriving DecidableEq, Repr

/-- The four Redis indexes used by QueueManager, each as an association list
member-to-score (or member-to-value for the processing hash). -/
structure RedisState where
  ready : List (String × Nat)
  delayed : List ((String × JobPriority) × Nat)
  processing : List (String × ProcEntry)
  dlq : List (DlqMember × Nat)
deriving DecidableEq, Repr

def emptyRedis : RedisState := ⟨[], [], [], []⟩

/-- Redis ZADD: insert the member with the given score, replacing any
existing score for that member. -/
def zAdd {α : Type} [DecidableEq α] (s : List (α × Nat)) (m : α) (sc : Nat) :
    List (α × Nat) :=
  s.filter (fun e => decide (e.1 ≠ m)) ++ [(m, sc)]

/-- Redis HSET on an association list. -/
def hSet {β : Type} (s : List (String × β)) (k : String) (v : β) :
    List (String × β) :=
  s.filter (fun e => decide (e.1 ≠ k)) ++ [(k, v)]

/-- Redis HDEL on an association list. -/
def hDel {β : Type} (s : List (String × β)) (k : String) : List (String × β) :=
  s.filter (fun e => decide (e.1 ≠ k))

/-- Ordering used by ZPOPMIN: by score, ties broken by member. -/
def entryLe (a b : String × Nat) : Bool :=
  if a.2 < b.2 then true
  else if b.2 < a.2 then false
  else if a.1 < b.1 then true
  else if a.1 = b.1 then true
  else false

def pickMin (a b : String × Nat) : String × Nat :=
  if entryLe a b then a else b

def findMin : List (String × Nat) → Option (String × Nat)
  | [] => none
  | e :: es => some (es.foldl pickMin e)

/-- Redis ZPOPMIN: remove and return the entry with minimal score. -/
def zPopMin (s : List (String × Nat)) :
    Option ((String × Nat) × List (String × Nat)) :=
  match findMin s with
  | none => none
  | some e => some (e, s.erase e)

/-- QueueManager.enqueue: add the job id to the ready index with the
priority-adjusted score. -/
def enqueue (now : Nat) (jobId : String) (priority : JobPriority)
    (st : RedisState) : RedisState :=
  { st with ready := zAdd st.ready jobId (calculateScore priority now) }

/-- QueueManager.enqueueDelayed: member "jobId:priority", score = fire time. -/
def enqueueDelayed (jobId : String) (scheduledAt : Nat) (priority : JobPriority)
    (st : RedisState) : RedisState :=
  { st with delayed := zAdd st.delayed (jobId, priority) scheduledAt }

/-- QueueManager.dequeue: ZPOPMIN on the ready index. -/
def dequeue (st : RedisState) : Option String × RedisState :=
  match zPopMin st.ready with
  | none => (none, st)
  | some (e, rest) => (some e.1, { st with ready := rest })

/-- QueueManager.markProcessing. -/
def markProcessing (now : Nat) (jobId workerId : String) (st : RedisState) :
    RedisState :=
  { st with processing := hSet st.processing jobId ⟨workerId, now⟩ }

/-- QueueManager.markCompleted: remove from the processing hash. -/
def markCompleted (jobId : String) (st : RedisState) : RedisState :=
  { st with processing := hDel st.processing jobId }

/-- QueueManager.moveToDLQ: add a structured member to the dead-letter set
and remove the job from the processing hash. -/
def moveToDLQ (now : Nat) (jobId reason : String) (st : RedisState) :
    RedisState :=
  { st with
    dlq := zAdd st.dlq ⟨jobId, reason, now⟩ now
    processing := hDel st.processing jobId }

/-- QueueManager.requeue: enqueue delayed at now + delayMs, remove from the
processing hash. -/
def requeue (now : Nat) (jobId : String) (priority : JobPriority)
    (delayMs : Nat) (st : RedisState) : RedisState :=
  let st1 := enqueueDelayed jobId (now + delayMs) priority st
  { st1 with processing := hDel st1.processing jobId }

/-- QueueManager.removeFromDLQ: remove the first dead-letter member whose
embedded job id matches. -/
def removeFromDLQ (jobId : String) (st : RedisState) : RedisState :=
  match st.dlq.find? (fun e => e.1.jobId == jobId) with
  | none => st
  | some e => { st with dlq := st.dlq.erase e }

/-- A row of the jobs table (Prisma Job model).  Payloads and results are
opaque structured documents, modelled as strings.  The auto-managed
updatedAt column is omitted. -/
structure Job where
  id : String
  name : String
  type : String
  payload : String
  status : JobStatus
  priority : JobPriority
  maxRetries : Nat
  retryCount : Nat
  retryDelay : Nat
  scheduledAt : Option Nat
  webhookUrl : Option String
  workerId : Option String
  scheduleId : Option String
  result : Option String
  error : Option String
  startedAt : Option Nat
  completedAt : Option Nat
  createdAt : Nat
deriving DecidableEq, Repr

/-- A row of the dead_letter_jobs table. -/
structure DeadLetterJob where
  id : String
  originalJobId : String
  jobName : String
  jobType : String
  jobPayload : String
  jobPriority : JobPriority
  failureReason : String
  failureCount : Nat
  lastError : Option String
  errorStack : Option String
  workerId : Option String
  originalCreatedAt : Nat
deriving DecidableEq, Repr

/-- JobProcessor retry configuration. -/
structure RetryConfig where
  maxRetries : Nat
  baseDelay : Nat
  maxDelay : Nat
  multiplier : Nat
deriving DecidableEq, Repr

def DEFAULT_RETRY_CONFIG : RetryConfig :=
  { maxRetries := 3, baseDelay := 1000, maxDelay := 60000, multiplier := 2 }

/-- JobProcessor.calculateRetryDelay: baseDelay * multiplier ^ retryCount,
capped at maxDelay. -/
def calculateRetryDelay (cfg : RetryConfig) (retryCount baseDelay : Nat) : Nat :=
  min (baseDelay * cfg.multiplier ^ retryCount) cfg.maxDelay

/-- Outcome of invoking the handler registered for a job type: the resolved
value, or the thrown error message together with its optional stack. -/
inductive HandlerOutcome where
  | ok (result : String)
  | err (msg : String) (stack : Option String)
deriving DecidableEq, Repr

/-- The JobResult record returned by JobProcessor.process. -/
structure JobResult where
  success : Bool
  result : Option String
  error : Option String
deriving DecidableEq, Repr

/-- State touched by one JobProcessor run: the durable job row, the Redis
indexes, and the dead_letter_jobs table. -/
structure ProcState where
  row : Job
  redis : RedisState
  deadLetters : List DeadLetterJob
deriving DecidableEq, Repr

/-- JobProcessor.handleSuccess.  The `job` argument is the in-memory
snapshot the processor holds; the database write is an unconditional update
by id (JobRepository.update has no status or workerId guard). -/
def handleSuccess (now : Nat) (job : Job) (result : String) (st : ProcState) :
    ProcState :=
  { st with
    row := { st.row with
      status := .COMPLETED, result := some result, completedAt := some now }
    redis := markCompleted job.id st.redis }

/-- JobProcessor.scheduleRetry: write RETRYING with the new retryCount and
the error message, then requeue with the exponential-backoff delay (the
exponent is retryCount - 1, i.e. the pre-increment retry count). -/
def scheduleRetry (cfg : RetryConfig) (now : Nat) (job : Job)
    (retryCount : Nat) (errorMessage : String) (st : ProcState) : ProcState :=
  let delay := calculateRetryDelay cfg (retryCount - 1) job.retryDelay
  { st with
    row := { st.row with
      status := .RETRYING, retryCount := retryCount,
      error := some errorMessage }
    redis := requeue now job.id job.priority delay st.redis }

/-- JobProcessor.handleFailure: FAILED row, Redis DLQ member, and a
dead_letter_jobs row copying the immutable descriptor of the snapshot. -/
def handleFailure (now : Nat) (dlId : String) (job : Job)
    (errorMessage : String) (errorStack : Option String) (st : ProcState) :
    ProcState :=
  { st with
    row := { st.row with
      status := .FAILED, error := some errorMessage, completedAt := some now }
    redis := moveToDLQ now job.id errorMessage st.redis
    deadLetters := st.deadLetters ++
      [{ id := dlId, originalJobId := job.id, jobName := job.name,
         jobType := job.type, jobPayload := job.payload,
         jobPriority := job.priority, failureReason := errorMessage,
         failureCount := job.retryCount + 1, lastError := some errorMessage,
         errorStack := errorStack, workerId := job.workerId,
         originalCreatedAt := job.createdAt }] }

/-- JobProcessor.handleError: retry while the snapshot retryCount is below
maxRetries, otherwise permanent failure. -/
def handleError (cfg : RetryConfig) (now : Nat) (dlId : String) (job : Job)
    (errorMessage : String) (errorStack : Option String) (st : ProcState) :
    ProcState :=
  if job.retryCount < job.maxRetries then
    scheduleRetry cfg now job (job.retryCount + 1) errorMessage st
  else
    handleFailure now dlId job errorMessage errorStack st

/-- JobProcessor.process: resolve the handler, transition to PROCESSING,
invoke the handler, and dispatch on its outcome.  `handlers` maps a job
type to the outcome of its registered handler, none when no handler is
registered. -/
def process (cfg : RetryConfig) (now : Nat) (dlId : String)
    (handlers : String → Option HandlerOutcome) (workerId : String)
    (job : Job) (st : ProcState) : ProcState × JobResult :=
  match handlers job.type with
  | none =>
    (handleFailure now dlId job
        ("No handler registered for job type: " ++ job.type) none st,
      { success := false, result := none,
        error := some ("No handler for type: " ++ job.type) })
  | some outcome =>
    let st1 : ProcState :=
      { st with
        row := { st.row with
          status := .PROCESSING, startedAt := some now,
          workerId := some workerId }
        redis := markProcessing now job.id workerId st.redis }
    match outcome with
    | .ok r =>
      (handleSuccess now job r st1,
        { success := true, result := some r, error := none })
    | .err m stack =>
      (handleError cfg now dlId job m stack st1,
        { success := false, result := none, error := some m })

/-- OrphanJobRecovery.recoverJob: write RETRYING with retryCount bumped by
one, clear workerId, remove from processing and requeue with the recovery
delay.  The caller passes the id, priority and retryCount of the orphan
row. -/
def recoverJob (now recoveryDelayMs : Nat) (jobId : String)
    (priority : JobPriority) (currentRetryCount : Nat) (st : ProcState) :
    ProcState :=
  { st with
    row := { st.row with
      status := .RETRYING, retryCount := currentRetryCount + 1,
      error := some "Worker died - job recovered automatically",
      workerId := none }
    redis := requeue now jobId priority recoveryDelayMs
      (markCompleted jobId st.redis) }

/-- Printable status names, as interpolated into service error messages. -/
def JobStatus.toName : JobStatus → String
  | .PENDING => "PENDING"
  | .QUEUED => "QUEUED"
  | .PROCESSING => "PROCESSING"
  | .COMPLETED => "COMPLETED"
  | .FAILED => "FAILED"
  | .RETRYING => "RETRYING"
  | .CANCELLED => "CANCELLED"

/-- Errors thrown by the service layer (NotFoundError / BadRequestError). -/
inductive HttpError where
  | notFound (entity id : String)
  | badRequest (message : String)
deriving DecidableEq, Repr

/-- JobService.cancel: look the row up, allow cancellation only from
PENDING, QUEUED or RETRYING, and otherwise reject without touching the
row.  Returns the service result together with the resulting jobs table. -/
def JobService.cancel (now : Nat) (db : List Job) (id : String) :
    Except HttpError Job × List Job :=
  match db.find? (fun j => j.id == id) with
  | none => (.error (.notFound "Job" id), db)
  | some job =>
    if job.status = .PENDING ∨ job.status = .QUEUED ∨ job.status = .RETRYING
    then
      let cancelled : Job :=
        { job with status := .CANCELLED, completedAt := some now }
      (.ok cancelled,
        db.map (fun j =>
          if j.id = id then
            { j with status := .CANCELLED, completedAt := some now }
          else j))
    else
      (.error (.badRequest
        ("Cannot cancel job with status " ++ job.status.toName)), db)

/-- A job row created by JobRepository.create from only name, type, payload
and priority: every other column takes its Prisma schema default
(status PENDING, maxRetries 3, retryCount 0, retryDelay 1000, nullable
columns null). -/
def createJobRowWithDefaults (newId : String) (now : Nat)
    (name ty payload : String) (priority : JobPriority) : Job :=
  { id := newId, name := name, type := ty, payload := payload
    status := .PENDING, priority := priority
    maxRetries := 3, retryCount := 0, retryDelay := 1000
    scheduledAt := none, webhookUrl := none, workerId := none
    scheduleId := none, result := none, error := none
    startedAt := none, completedAt := none, createdAt := now }

/-- State touched by DeadLetterService: jobs table, dead_letter_jobs table
and Redis. -/
structure DlState where
  jobs : List Job
  deadLetters : List DeadLetterJob
  redis : RedisState
deriving DecidableEq, Repr

/-- DeadLetterService.retry: create a fresh job from the stored copy (name
suffixed with " (retry)"), enqueue it, set it QUEUED, delete the
dead-letter row and remove the Redis DLQ member of the original job. -/
def DeadLetterService.retry (now : Nat) (newJobId dlId : String)
    (st : DlState) : Except HttpError Job × DlState :=
  match st.deadLetters.find? (fun d => d.id == dlId) with
  | none => (.error (.notFound "DeadLetterJob" dlId), st)
  | some dl =>
    let newJob := createJobRowWithDefaults newJobId now
      (dl.jobName ++ " (retry)") dl.jobType dl.jobPayload dl.jobPriority
    let jobs1 := st.jobs ++ [newJob]
    let redis1 := enqueue now newJob.id newJob.priority st.redis
    let queuedJob : Job := { newJob with status := .QUEUED }
    let jobs2 := jobs1.map (fun j =>
      if j.id = newJobId then { j with status := .QUEUED } else j)
    let dls := st.deadLetters.filter (fun d => decide (d.id ≠ dlId))
    let redis2 := removeFromDLQ dl.originalJobId redis1
    (.ok queuedJob, { jobs := jobs2, deadLetters := dls, redis := redis2 })

/-- A row of the schedules table. -/
structure Schedule where
  id : String
  name : String
  cronExpr : String
  timezone : String
  jobType : String
  jobPayload : String
  jobPriority : JobPriority
  enabled : Bool
  lastRunAt : Option Nat
  nextRunAt : Option Nat
  runCount : Nat
deriving DecidableEq, Repr

/-- State touched by ScheduleExecutor.executeSchedule. -/
structure ExecState where
  schedule : Schedule
  jobs : List Job
  redis : RedisState
deriving DecidableEq, Repr

/-- Modelled from the spec: CronParser.getNextRun delegates to the external
croner library, whose code is not part of this repository.  The executor is
therefore parameterized by a function computing, for a cron expression, an
IANA timezone and a base instant, the next firing of the expression in that
timezone; the spec requires the computed instant to be strictly after the
base instant, which the theorems take as a hypothesis.  This predicate
states that requirement. -/
def CronNextStrictlyAfter
    (getNextRun : String → String → Nat → Option Nat) : Prop :=
  ∀ expr tz t n, getNextRun expr tz t = some n → t < n

/-- ScheduleExecutor.executeSchedule: on the success path create the job
from the template (maxRetries 3, retryDelay 1000), link it, enqueue it, set
it QUEUED, and markExecuted (lastRunAt = now, new nextRunAt, runCount + 1);
when job creation throws, still advance nextRunAt with the same cron
evaluation but leave lastRunAt and runCount alone.  `createOk` is whether
the job-creation steps succeed. -/
def executeSchedule (getNextRun : String → String → Nat → Option Nat)
    (createOk : Bool) (now : Nat) (newJobId : String) (st : ExecState) :
    ExecState :=
  let schedule := st.schedule
  if createOk then
    let job := createJobRowWithDefaults newJobId now
      (schedule.name ++ " (scheduled)") schedule.jobType schedule.jobPayload
      schedule.jobPriority
    let job1 : Job := { job with scheduleId := some schedule.id }
    let redis1 := enqueue now job.id job.priority st.redis
    let job2 : Job := { job1 with status := .QUEUED }
    let nextRunAt := getNextRun schedule.cronExpr schedule.timezone now
    { schedule := { schedule with
        lastRunAt := some now, nextRunAt := nextRunAt,
        runCount := schedule.runCount + 1 }
      jobs := st.jobs ++ [job2]
      redis := redis1 }
  else
    let nextRunAt := getNextRun schedule.cronExpr schedule.timezone now
    { st with schedule := { schedule with nextRunAt := nextRunAt } }

/-- Webhook event statuses (free strings in the source, with exactly these
four values written). -/
inductive WebhookStatus where
  | pending
  | retrying
  | success
  | failed
deriving DecidableEq, Repr

/-- A row of the webhook_events table. -/
structure WebhookEvent where
  jobId : String
  jobType : String
  url : String
  payload : String
  status : WebhookStatus
  attempts : Nat
  maxAttempts : Nat
  lastStatusCode : Option Nat
  lastError : Option String
  lastAttemptAt : Option Nat
  completedAt : Option Nat
deriving DecidableEq, Repr

/-- WebhookEventRepository.create: status pending, attempts 0. -/
def createEvent (jobId jobType url payload : String) (maxAttempts : Nat) :
    WebhookEvent :=
  { jobId := jobId, jobType := jobType, url := url, payload := payload
    status := .pending, attempts := 0, maxAttempts := maxAttempts
    lastStatusCode := none, lastError := none, lastAttemptAt := none
    completedAt := none }

/-- WebhookEventRepository.markSuccess. -/
def markSuccess (now statusCode : Nat) (e : WebhookEvent) : WebhookEvent :=
  { e with
    status := .success, lastStatusCode := some statusCode,
    lastAttemptAt := some now, completedAt := some now }

/-- WebhookEventRepository.markFailed: increments attempts and flips to
failed when the new count reaches maxAttempts.  An absent statusCode leaves
the lastStatusCode column untouched (Prisma skips undefined fields). -/
def markFailed (now : Nat) (error : String) (statusCode : Option Nat)
    (e : WebhookEvent) : WebhookEvent :=
  let newAttempts := e.attempts + 1
  let isFinalFailure := e.maxAttempts ≤ newAttempts
  { e with
    status := if isFinalFailure then .failed else .retrying
    attempts := newAttempts
    lastStatusCode :=
      match statusCode with
      | some c => some c
      | none => e.lastStatusCode
    lastError := some error
    lastAttemptAt := some now
    completedAt := if isFinalFailure then some now else none }

/-- WebhookEventRepository.updateAttempt as called by the retry processor:
only status and attempts are passed, plus the always-written lastAttemptAt. -/
def updateAttempt (now : Nat) (status : WebhookStatus) (attempts : Nat)
    (e : WebhookEvent) : WebhookEvent :=
  { e with status := status, attempts := attempts, lastAttemptAt := some now }

/-- Result of one outbound HTTP POST. -/
inductive HttpOutcome where
  | response (statusCode : Nat) (statusText : String)
  | timeout
  | transportError (msg : String)
deriving DecidableEq, Repr

/-- WebhookDispatcher.executeWebhook: a 2xx response marks success, a
non-2xx response marks failure with the code, a timeout or transport error
marks failure without a code. -/
def executeWebhook (now : Nat) (outcome : HttpOutcome) (e : WebhookEvent) :
    WebhookEvent × Bool :=
  match outcome with
  | .response code text =>
    if 200 ≤ code ∧ code ≤ 299 then (markSuccess now code e, true)
    else
      (markFailed now ("HTTP " ++ toString code ++ ": " ++ text)
        (some code) e, false)
  | .timeout => (markFailed now "Request timeout" none e, false)
  | .transportError msg => (markFailed now msg none e, false)

/-- WebhookDispatcher.dispatch: create the outbox row and execute the first
attempt inline. -/
def dispatch (now : Nat) (outcome : HttpOutcome)
    (jobId jobType url payload : String) (maxAttempts : Nat) : WebhookEvent :=
  (executeWebhook now outcome
    (createEvent jobId jobType url payload maxAttempts)).1

/-- WebhookRetryProcessor.shouldRetry: enough time has passed since the
last attempt according to the exponential backoff. -/
def shouldRetry (baseDelayMs multiplier now attempts : Nat)
    (lastAttemptAt : Option Nat) : Bool :=
  match lastAttemptAt with
  | none => true
  | some la => decide (la + baseDelayMs * multiplier ^ attempts ≤ now)

/-- One WebhookRetryProcessor iteration for a single event: when the event
is selected (status pending or retrying, attempts below maxAttempts) and
due, optimistically mark it retrying with attempts + 1 and re-execute the
HTTP send; otherwise leave it alone. -/
def retryStep (baseDelayMs multiplier now : Nat) (outcome : HttpOutcome)
    (e : WebhookEvent) : WebhookEvent :=
  if (e.status = .pending ∨ e.status = .retrying) ∧
      e.attempts < e.maxAttempts ∧
      shouldRetry baseDelayMs multiplier now e.attempts e.lastAttemptAt = true
  then (executeWebhook now outcome (updateAttempt now .retrying (e.attempts + 1) e)).1
  else e

/-- The webhook-event rows reachable through the pipeline: a dispatched
event, followed by any number of retry-processor iterations with arbitrary
clocks, backoff configurations and HTTP outcomes. -/
inductive ReachableEvent : WebhookEvent → Prop where
  | dispatched (now : Nat) (outcome : HttpOutcome)
      (jobId jobType url payload : String) (maxAttempts : Nat) :
      ReachableEvent (dispatch now outcome jobId jobType url payload maxAttempts)
  | retried (b m now : Nat) (outcome : HttpOutcome) (e : WebhookEvent) :
      ReachableEvent e → ReachableEvent (retryStep b m now outcome e)

/-! ### Lemmas about the sorted-set primitives -/

lemma entryLe_score_le {a b : String × Nat} (h : entryLe a b = true) :
    a.2 ≤ b.2 := by
  unfold entryLe at h
  split_ifs at h <;> omega

lemma entryLe_false_score_le {a b : String × Nat} (h : entryLe a b = false) :
    b.2 ≤ a.2 := by
  unfold entryLe at h
  split_ifs at h <;> omega

lemma pickMin_eq_or (a b : String × Nat) : pickMin a b = a ∨ pickMin a b = b := by
  unfold pickMin
  split_ifs <;> simp

lemma pickMin_score_le_left (a b : String × Nat) : (pickMin a b).2 ≤ a.2 := by
  unfold pickMin
  cases h : entryLe a b with
  | true => simp [h]
  | false => simp [h, entryLe_false_score_le h]

lemma pickMin_score_le_right (a b : String × Nat) : (pickMin a b).2 ≤ b.2 := by
  unfold pickMin
  cases h : entryLe a b with
  | true => simp [h, entryLe_score_le h]
  | false => simp [h]

lemma foldl_pickMin_mem (es : List (String × Nat)) (e : String × Nat) :
    es.foldl pickMin e = e ∨ es.foldl pickMin e ∈ es := by
  induction es generalizing e with
  | nil => simp
  | cons x xs ih =>
    simp only [List.foldl_cons]
    rcases ih (pickMin e x) with h | h
    · rcases pickMin_eq_or e x with h2 | h2
      · left; rw [h, h2]
      · right; rw [h, h2]; exact List.mem_cons_self x xs
    · right; exact List.mem_cons_of_mem x h

lemma foldl_pickMin_le_init (es : List (String × Nat)) (e : String × Nat) :
    (es.foldl pickMin e).2 ≤ e.2 := by
  induction es generalizing e with
  | nil => simp
  | cons x xs ih =>
    simp only [List.foldl_cons]
    exact le_trans (ih (pickMin e x)) (pickMin_score_le_left e x)

lemma foldl_pickMin_le_mem (es : List (String × Nat)) (e : String × Nat) :
    ∀ x ∈ es, (es.foldl pickMin e).2 ≤ x.2 := by
  induction es generalizing e with
  | nil => simp
  | cons y ys ih =>
    intro x hx
    simp only [List.foldl_cons]
    rcases List.mem_cons.mp hx with h | h
    · subst h
      exact le_trans (foldl_pickMin_le_init ys (pickMin e x))
        (pickMin_score_le_right e x)
    · exact ih (pickMin e y) x h

/-- C1. For every priority p and every enqueue at time t, QueueManager
stores the job id in the ready index with score t + offset(p), the offsets
satisfy offset(CRITICAL) = 0 < offset(HIGH) < offset(NORMAL) < offset(LOW),
and dequeue returns and removes a member of minimum score. -/
theorem C1_enqueue_score_dequeue_min :
    (∀ now jobId priority st,
      (jobId, now + PRIORITY_SCORES priority) ∈
        (enqueue now jobId priority st).ready) ∧
    (PRIORITY_SCORES .CRITICAL = 0 ∧
      PRIORITY_SCORES .CRITICAL < PRIORITY_SCORES .HIGH ∧
      PRIORITY_SCORES .HIGH < PRIORITY_SCORES .NORMAL ∧
      PRIORITY_SCORES .NORMAL < PRIORITY_SCORES .LOW) ∧
    (∀ st jobId st2, dequeue st = (some jobId, st2) →
      ∃ sc, (jobId, sc) ∈ st.ready ∧
        (∀ e ∈ st.ready, sc ≤ e.2) ∧
        st2.ready = st.ready.erase (jobId, sc) ∧
        st2.delayed = st.delayed ∧ st2.processing = st.processing ∧
        st2.dlq = st.dlq) := by
  refine ⟨?_, ⟨rfl, by decide, by decide, by decide⟩, ?_⟩
  · intro now jobId priority st
    simp [enqueue, zAdd, calculateScore]
  · intro st jobId st2 h
    unfold dequeue zPopMin at h
    cases hr : st.ready with
    | nil => rw [hr] at h; simp [findMin] at h
    | cons e es =>
      rw [hr] at h
      simp only [findMin] at h
      set x := es.foldl pickMin e with hx
      obtain ⟨h1, h2⟩ := Prod.mk.injEq .. ▸ h
      have hxj : (jobId, x.2) = x := by
        rw [← Option.some_inj.mp h1]
      refine ⟨x.2, ?_, ?_, ?_, ?_, ?_, ?_⟩
      · rw [hxj]
        rcases foldl_pickMin_mem es e with hm | hm
        · rw [hx, hm]; exact List.mem_cons_self e es
        · rw [hx]; exact List.mem_cons_of_mem e hm
      · intro y hy
        rcases List.mem_cons.mp hy with h3 | h3
        · rw [h3]; exact foldl_pickMin_le_init es e
        · exact foldl_pickMin_le_mem es e y h3
      · rw [← h2, hxj]
      · rw [← h2]
      · rw [← h2]
      · rw [← h2]

/-- Witness for C1: with the ready index holding only job "a" enqueued
CRITICAL at time 5, dequeue pops "a" and the minimum-score facts hold. -/
theorem C1_enqueue_score_dequeue_min_witness :
    ∃ sc, ("a", sc) ∈ (enqueue 5 "a" .CRITICAL emptyRedis).ready ∧
      (∀ e ∈ (enqueue 5 "a" .CRITICAL emptyRedis).ready, sc ≤ e.2) ∧
      emptyRedis.ready =
        (enqueue 5 "a" .CRITICAL emptyRedis).ready.erase ("a", sc) ∧
      emptyRedis.delayed = (enqueue 5 "a" .CRITICAL emptyRedis).delayed ∧
      emptyRedis.processing =
        (enqueue 5 "a" .CRITICAL emptyRedis).processing ∧
      emptyRedis.dlq = (enqueue 5 "a" .CRITICAL emptyRedis).dlq :=
  C1_enqueue_score_dequeue_min.2.2 (enqueue 5 "a" .CRITICAL emptyRedis) "a"
    emptyRedis (by decide)

/-- C5 counterexample. Job "b" (LOW) enqueued at time 0 and job "a"
(CRITICAL) enqueued at time 3000001 are both in the ready index, yet
dequeue pops the LOW job "b" first: the additive score makes priority
dominance hold only within the 3000000 ms LOW offset, not regardless of
enqueue times. -/
theorem C5_counterexample :
    (dequeue (enqueue 3000001 "a" .CRITICAL
      (enqueue 0 "b" .LOW emptyRedis))).1 = some "b" := by decide

lemma dequeue_pair (idA idB : String) (sA sB : Nat)
    (d : List ((String × JobPriority) × Nat)) (p : List (String × ProcEntry))
    (q : List (DlqMember × Nat)) (h : sA < sB) :
    (dequeue (⟨[(idB, sB), (idA, sA)], d, p, q⟩ : RedisState)).1 =
      some idA := by
  have he : entryLe (idB, sB) (idA, sA) = false := by
    unfold entryLe
    rw [if_neg (by omega : ¬ (sB < sA)), if_pos h]
  unfold dequeue zPopMin findMin
  simp [pickMin, he]

/-- C5 amended. For jobs A (CRITICAL, enqueued at tA) and B (LOW, enqueued
at tB) both in the ready index, dequeue pops A before B provided
tA + offset(CRITICAL) < tB + offset(LOW), i.e. A is enqueued less than
3000000 ms after B. -/
theorem C5_amended_priority_dominance :
    ∀ (tA tB : Nat) (idA idB : String), idA ≠ idB →
    tA + PRIORITY_SCORES .CRITICAL < tB + PRIORITY_SCORES .LOW →
    (dequeue (enqueue tA idA .CRITICAL
      (enqueue tB idB .LOW emptyRedis))).1 = some idA := by
  intro tA tB idA idB hne hlt
  have hba : idB ≠ idA := fun h => hne h.symm
  simp only [PRIORITY_SCORES] at hlt
  have hstate : enqueue tA idA .CRITICAL (enqueue tB idB .LOW emptyRedis) =
      (⟨[(idB, tB + 3000000), (idA, tA + 0)], [], [], []⟩ : RedisState) := by
    simp [enqueue, zAdd, calculateScore, PRIORITY_SCORES, emptyRedis, hba]
  rw [hstate]
  exact dequeue_pair idA idB (tA + 0) (tB + 3000000) [] [] [] (by omega)

/-- Witness for C5 amended at tA = 10, tB = 0. -/
theorem C5_amended_priority_dominance_witness :
    (dequeue (enqueue 10 "a" .CRITICAL
      (enqueue 0 "b" .LOW emptyRedis))).1 = some "a" :=
  C5_amended_priority_dominance 10 0 "a" "b" (by decide) (by decide)

/-- A job row as orphan recovery leaves it: RETRYING, workerId cleared,
retryCount bumped from 1 to 2. -/
def recoveredRow : Job where
  id := "job-1"
  name := "demo"
  type := "email.send"
  payload := "payload"
  status := .RETRYING
  priority := .NORMAL
  maxRetries := 3
  retryCount := 2
  retryDelay := 1000
  scheduledAt := none
  webhookUrl := none
  workerId := none
  scheduleId := none
  result := none
  error := some "Worker died - job recovered automatically"
  startedAt := some 50
  completedAt := none
  createdAt := 0

/-- The stale in-memory snapshot held by the late-finishing worker
"worker-1": it still believes the job is PROCESSING under its ownership. -/
def staleSnapshot : Job :=
  { recoveredRow with
    status := .PROCESSING, workerId := some "worker-1", retryCount := 1,
    error := none }

/-- C2 (code bug). JobProcessor.handleSuccess writes COMPLETED through the
unguarded JobRepository.update (where clause on id only): applied to a row
that orphan recovery has already reset to RETRYING with workerId null, the
compare-and-set guard is false, yet the row is still overwritten to
COMPLETED with the late result instead of being discarded. -/
theorem C2_completed_write_unconditional :
    (handleSuccess 100 staleSnapshot "late-result"
        ⟨recoveredRow, emptyRedis, []⟩).row.status = .COMPLETED ∧
    (handleSuccess 100 staleSnapshot "late-result"
        ⟨recoveredRow, emptyRedis, []⟩).row.result = some "late-result" ∧
    recoveredRow.status ≠ .PROCESSING ∧
    recoveredRow.workerId ≠ some "worker-1" := by
  refine ⟨rfl, rfl, by decide, by decide⟩

/-- C3. When the handler throws and retryCount < maxRetries, process writes
RETRYING with retryCount bumped by exactly one and the error message
recorded, and requeues the job into the delayed index with delay
min(retryDelay * 2 ^ retryCount, 60000), the exponent being the
pre-increment retryCount. -/
theorem C3_retry_backoff :
    ∀ (now : Nat) (dlId : String) (handlers : String → Option HandlerOutcome)
      (workerId : String) (job : Job) (rd : RedisState)
      (dls : List DeadLetterJob) (m : String) (stack : Option String),
    handlers job.type = some (.err m stack) →
    job.retryCount < job.maxRetries →
    ((process DEFAULT_RETRY_CONFIG now dlId handlers workerId job
        ⟨job, rd, dls⟩).1.row.status = .RETRYING ∧
      (process DEFAULT_RETRY_CONFIG now dlId handlers workerId job
        ⟨job, rd, dls⟩).1.row.retryCount = job.retryCount + 1 ∧
      (process DEFAULT_RETRY_CONFIG now dlId handlers workerId job
        ⟨job, rd, dls⟩).1.row.error = some m ∧
      ((job.id, job.priority),
          now + min (job.retryDelay * 2 ^ job.retryCount) 60000) ∈
        (process DEFAULT_RETRY_CONFIG now dlId handlers workerId job
          ⟨job, rd, dls⟩).1.redis.delayed) := by
  intro now dlId handlers w job rd dls m stack hh hlt
  unfold process
  rw [hh]
  simp only [handleError, hlt, if_true, if_pos]
  unfold scheduleRetry calculateRetryDelay DEFAULT_RETRY_CONFIG requeue
    enqueueDelayed zAdd
  simp [Nat.add_sub_cancel]

/-- Witness for C3 on a concrete failing job. -/
theorem C3_retry_backoff_witness :
    ((process DEFAULT_RETRY_CONFIG 100 "dl-1"
        (fun _ => some (.err "boom" none)) "worker-1" recoveredRow
        ⟨recoveredRow, emptyRedis, []⟩).1.row.status = .RETRYING ∧
      (process DEFAULT_RETRY_CONFIG 100 "dl-1"
        (fun _ => some (.err "boom" none)) "worker-1" recoveredRow
        ⟨recoveredRow, emptyRedis, []⟩).1.row.retryCount =
          recoveredRow.retryCount + 1 ∧
      (process DEFAULT_RETRY_CONFIG 100 "dl-1"
        (fun _ => some (.err "boom" none)) "worker-1" recoveredRow
        ⟨recoveredRow, emptyRedis, []⟩).1.row.error = some "boom" ∧
      ((recoveredRow.id, recoveredRow.priority),
          100 + min (recoveredRow.retryDelay * 2 ^ recoveredRow.retryCount)
            60000) ∈
        (process DEFAULT_RETRY_CONFIG 100 "dl-1"
          (fun _ => some (.err "boom" none)) "worker-1" recoveredRow
          ⟨recoveredRow, emptyRedis, []⟩).1.redis.delayed) :=
  C3_retry_backoff 100 "dl-1" (fun _ => some (.err "boom" none)) "worker-1"
    recoveredRow emptyRedis [] "boom" none rfl (by decide)

/-- A job row whose retryCount exceeds maxRetries, as produced by orphan
recovery bumping the count past the limit. -/
def overRetriedRow : Job :=
  { recoveredRow with retryCount := 4 }

/-- C4 counterexample. A handler error on a job with retryCount = 4 and
maxRetries = 3 records permanent failure even though retryCount is not
equal to maxRetries and a handler is registered: the code guards with
retryCount >= maxRetries, not equality. -/
theorem C4_counterexample :
    (process DEFAULT_RETRY_CONFIG 100 "dl-1"
        (fun _ => some (.err "boom" none)) "worker-1" overRetriedRow
        ⟨overRetriedRow, emptyRedis, []⟩).1.row.status = .FAILED ∧
    overRetriedRow.retryCount ≠ overRetriedRow.maxRetries := by
  refine ⟨rfl, by decide⟩

/-- C4 amended. Process records permanent failure exactly when either the
handler errors with retryCount >= maxRetries, or no handler is registered
for the job type (terminal on first occurrence, consuming no retries);
permanent failure writes FAILED, the error message and completedAt = now on
the row, calls MoveToDLQ, and inserts a DeadLetterJob row copying name,
type, payload and priority with failureCount = retryCount + 1. -/
theorem C4_amended_permanent_failure :
    ∀ (cfg : RetryConfig) (now : Nat) (dlId : String)
      (handlers : String → Option HandlerOutcome) (workerId : String)
      (job : Job) (rd : RedisState) (dls : List DeadLetterJob),
    (((process cfg now dlId handlers workerId job
        ⟨job, rd, dls⟩).1.row.status = .FAILED) ↔
      (handlers job.type = none ∨
        ∃ m stack, handlers job.type = some (.err m stack) ∧
          job.maxRetries ≤ job.retryCount)) ∧
    (handlers job.type = none →
      (process cfg now dlId handlers workerId job
        ⟨job, rd, dls⟩).1.row.retryCount = job.retryCount ∧
      (process cfg now dlId handlers workerId job
        ⟨job, rd, dls⟩).1.deadLetters = dls ++
        [{ id := dlId, originalJobId := job.id, jobName := job.name,
           jobType := job.type, jobPayload := job.payload,
           jobPriority := job.priority,
           failureReason := "No handler registered for job type: " ++ job.type,
           failureCount := job.retryCount + 1,
           lastError := some ("No handler registered for job type: " ++ job.type),
           errorStack := none, workerId := job.workerId,
           originalCreatedAt := job.createdAt }]) ∧
    (∀ m stack, handlers job.type = some (.err m stack) →
      job.maxRetries ≤ job.retryCount →
      (process cfg now dlId handlers workerId job
        ⟨job, rd, dls⟩).1.row.error = some m ∧
      (process cfg now dlId handlers workerId job
        ⟨job, rd, dls⟩).1.row.completedAt = some now ∧
      ((⟨job.id, m, now⟩ : DlqMember), now) ∈
        (process cfg now dlId handlers workerId job
          ⟨job, rd, dls⟩).1.redis.dlq ∧
      (process cfg now dlId handlers workerId job
        ⟨job, rd, dls⟩).1.deadLetters = dls ++
        [{ id := dlId, originalJobId := job.id, jobName := job.name,
           jobType := job.type, jobPayload := job.payload,
           jobPriority := job.priority, failureReason := m,
           failureCount := job.retryCount + 1, lastError := some m,
           errorStack := stack, workerId := job.workerId,
           originalCreatedAt := job.createdAt }]) := by
  intro cfg now dlId handlers w job rd dls
  refine ⟨?_, ?_, ?_⟩
  · cases hh : handlers job.type with
    | none => simp [process, hh, handleFailure]
    | some outcome =>
      cases outcome with
      | ok r => simp [process, hh, handleSuccess]
      | err m stack =>
        by_cases hrc : job.retryCount < job.maxRetries
        · simp only [process, hh, handleError, hrc, if_true, if_pos,
            scheduleRetry]
          constructor
          · intro h; exact absurd h (by simp)
          · rintro (h | ⟨m2, stack2, heq, hle⟩)
            · exact absurd h (by simp)
            · omega
        · have hle : job.maxRetries ≤ job.retryCount := Nat.le_of_not_lt hrc
          simp only [process, hh, handleError, hrc, if_false, if_neg,
            not_false_iff, handleFailure]
          constructor
          · intro _; exact Or.inr ⟨m, stack, rfl, hle⟩
          · intro _; trivial
  · intro hh
    simp [process, hh, handleFailure]
  · intro m stack hh hle
    have hrc : ¬ job.retryCount < job.maxRetries := Nat.not_lt.mpr hle
    refine ⟨?_, ?_, ?_, ?_⟩ <;>
      simp [process, hh, handleError, hrc, handleFailure, moveToDLQ, zAdd]

/-- Witness for C4 amended: the permanent-failure path on a concrete
over-retried job. -/
theorem C4_amended_permanent_failure_witness :
    (process DEFAULT_RETRY_CONFIG 100 "dl-1"
        (fun _ => some (.err "boom" none)) "worker-1" overRetriedRow
        ⟨overRetriedRow, emptyRedis, []⟩).1.row.error = some "boom" ∧
    (process DEFAULT_RETRY_CONFIG 100 "dl-1"
        (fun _ => some (.err "boom" none)) "worker-1" overRetriedRow
        ⟨overRetriedRow, emptyRedis, []⟩).1.row.completedAt = some 100 ∧
    ((⟨overRetriedRow.id, "boom", 100⟩ : DlqMember), 100) ∈
      (process DEFAULT_RETRY_CONFIG 100 "dl-1"
        (fun _ => some (.err "boom" none)) "worker-1" overRetriedRow
        ⟨overRetriedRow, emptyRedis, []⟩).1.redis.dlq ∧
    (process DEFAULT_RETRY_CONFIG 100 "dl-1"
        (fun _ => some (.err "boom" none)) "worker-1" overRetriedRow
        ⟨overRetriedRow, emptyRedis, []⟩).1.deadLetters = [] ++
      [{ id := "dl-1", originalJobId := overRetriedRow.id,
         jobName := overRetriedRow.name, jobType := overRetriedRow.type,
         jobPayload := overRetriedRow.payload,
         jobPriority := overRetriedRow.priority, failureReason := "boom",
         failureCount := overRetriedRow.retryCount + 1,
         lastError := some "boom", errorStack := none,
         workerId := overRetriedRow.workerId,
         originalCreatedAt := overRetriedRow.createdAt }] :=
  (C4_amended_permanent_failure DEFAULT_RETRY_CONFIG 100 "dl-1"
    (fun _ => some (.err "boom" none)) "worker-1" overRetriedRow emptyRedis
    []).2.2 "boom" none rfl (by decide)

/-- A job row that has exhausted its retries but is still PROCESSING. -/
def exhaustedRow : Job :=
  { recoveredRow with
    status := .PROCESSING, retryCount := 3, workerId := some "worker-1",
    error := none }

/-- C6 counterexample. Orphan recovery of a PROCESSING job whose retryCount
already equals maxRetries = 3 bumps retryCount to 4, violating the
invariant retryCount <= maxRetries. -/
theorem C6_counterexample :
    ¬ ((recoverJob 0 5000 exhaustedRow.id exhaustedRow.priority
        exhaustedRow.retryCount ⟨exhaustedRow, emptyRedis, []⟩).row.retryCount ≤
      (recoverJob 0 5000 exhaustedRow.id exhaustedRow.priority
        exhaustedRow.retryCount ⟨exhaustedRow, emptyRedis, []⟩).row.maxRetries) := by
  decide

/-- C6 amended. The job processor (retry scheduling included) preserves
retryCount <= maxRetries, while orphan recovery increments retryCount
unconditionally and so preserves the invariant only when the recovered row
still has retryCount < maxRetries. -/
theorem C6_amended_retry_bound :
    (∀ (cfg : RetryConfig) (now : Nat) (dlId : String)
      (handlers : String → Option HandlerOutcome) (workerId : String)
      (job : Job) (rd : RedisState) (dls : List DeadLetterJob),
      job.retryCount ≤ job.maxRetries →
      (process cfg now dlId handlers workerId job
        ⟨job, rd, dls⟩).1.row.retryCount ≤
      (process cfg now dlId handlers workerId job
        ⟨job, rd, dls⟩).1.row.maxRetries) ∧
    (∀ (now d : Nat) (st : ProcState),
      st.row.retryCount < st.row.maxRetries →
      (recoverJob now d st.row.id st.row.priority
        st.row.retryCount st).row.retryCount ≤
      (recoverJob now d st.row.id st.row.priority
        st.row.retryCount st).row.maxRetries) := by
  constructor
  · intro cfg now dlId handlers w job rd dls hinv
    cases hh : handlers job.type with
    | none => simp [process, hh, handleFailure]; omega
    | some outcome =>
      cases outcome with
      | ok r => simp [process, hh, handleSuccess]; omega
      | err m stack =>
        by_cases hrc : job.retryCount < job.maxRetries
        · simp [process, hh, handleError, hrc, scheduleRetry]; omega
        · simp [process, hh, handleError, hrc, handleFailure]; omega
  · intro now d st hlt
    simp [recoverJob]
    omega

/-- Witness for C6 amended at concrete inputs below the retry limit. -/
theorem C6_amended_retry_bound_witness :
    ((process DEFAULT_RETRY_CONFIG 100 "dl-1"
        (fun _ => some (.err "boom" none)) "worker-1" recoveredRow
        ⟨recoveredRow, emptyRedis, []⟩).1.row.retryCount ≤
      (process DEFAULT_RETRY_CONFIG 100 "dl-1"
        (fun _ => some (.err "boom" none)) "worker-1" recoveredRow
        ⟨recoveredRow, emptyRedis, []⟩).1.row.maxRetries) ∧
    ((recoverJob 0 5000 recoveredRow.id recoveredRow.priority
        recoveredRow.retryCount ⟨recoveredRow, emptyRedis, []⟩).row.retryCount ≤
      (recoverJob 0 5000 recoveredRow.id recoveredRow.priority
        recoveredRow.retryCount ⟨recoveredRow, emptyRedis, []⟩).row.maxRetries) :=
  ⟨C6_amended_retry_bound.1 DEFAULT_RETRY_CONFIG 100 "dl-1"
      (fun _ => some (.err "boom" none)) "worker-1" recoveredRow emptyRedis
      [] (by decide),
    C6_amended_retry_bound.2 0 5000 ⟨recoveredRow, emptyRedis, []⟩ (by decide)⟩

/-- C8. cancel transitions a job to CANCELLED exactly when its current
status is PENDING, QUEUED or RETRYING; from any other status the call is
rejected with a conflict error and the jobs table is left unchanged. -/
theorem C8_cancel_guard :
    ∀ (now : Nat) (db : List Job) (id : String) (job : Job),
    db.find? (fun j => j.id == id) = some job →
    ((job.status = .PENDING ∨ job.status = .QUEUED ∨ job.status = .RETRYING) →
      (JobService.cancel now db id).1 =
        .ok { job with status := .CANCELLED, completedAt := some now } ∧
      (JobService.cancel now db id).2 =
        db.map (fun j =>
          if j.id = id then
            { j with status := .CANCELLED, completedAt := some now }
          else j)) ∧
    (¬ (job.status = .PENDING ∨ job.status = .QUEUED ∨
        job.status = .RETRYING) →
      (JobService.cancel now db id).1 =
        .error (.badRequest
          ("Cannot cancel job with status " ++ job.status.toName)) ∧
      (JobService.cancel now db id).2 = db) := by
  intro now db id job hfind
  constructor
  · intro hst
    simp only [JobService.cancel, hfind]
    rw [if_pos hst]
    exact ⟨rfl, rfl⟩
  · intro hst
    simp only [JobService.cancel, hfind]
    rw [if_neg hst]
    exact ⟨rfl, rfl⟩

/-- Witness for C8: cancelling the RETRYING row succeeds, cancelling the
PROCESSING snapshot is rejected without change. -/
theorem C8_cancel_guard_witness :
    ((JobService.cancel 200 [recoveredRow] "job-1").1 =
      .ok { recoveredRow with status := .CANCELLED, completedAt := some 200 } ∧
     (JobService.cancel 200 [recoveredRow] "job-1").2 =
      [recoveredRow].map (fun j =>
        if j.id = "job-1" then
          { j with status := .CANCELLED, completedAt := some 200 }
        else j)) ∧
    ((JobService.cancel 200 [staleSnapshot] "job-1").1 =
      .error (.badRequest
        ("Cannot cancel job with status " ++ staleSnapshot.status.toName)) ∧
     (JobService.cancel 200 [staleSnapshot] "job-1").2 = [staleSnapshot]) :=
  ⟨(C8_cancel_guard 200 [recoveredRow] "job-1" recoveredRow (by decide)).1
      (by decide),
    (C8_cancel_guard 200 [staleSnapshot] "job-1" staleSnapshot (by decide)).2
      (by decide)⟩

lemma find?_cons_true {α : Type} {p : α → Bool} {a : α} {l : List α}
    (h : p a = true) : (a :: l).find? p = some a := by
  simp [List.find?, h]

lemma find?_cons_false {α : Type} {p : α → Bool} {a : α} {l : List α}
    (h : p a = false) : (a :: l).find? p = l.find? p := by
  simp [List.find?, h]

/-- Erasing the first element found by p from a list holding at most one
match leaves no match behind. -/
lemma no_match_after_erase {α : Type} [BEq α] [LawfulBEq α] (p : α → Bool) :
    ∀ (l : List α) (x : α), l.find? p = some x → l.countP p ≤ 1 →
    ∀ y ∈ l.erase x, p y = false := by
  intro l
  induction l with
  | nil => intro x hf; simp at hf
  | cons a t ih =>
    intro x hf hc y hy
    cases hpa : p a with
    | true =>
      rw [find?_cons_true hpa] at hf
      have hx : a = x := Option.some_inj.mp hf
      subst hx
      rw [List.erase_cons_head] at hy
      rw [List.countP_cons, hpa] at hc
      simp only [if_pos] at hc
      have hzero : t.countP p = 0 := by omega
      simpa using List.countP_eq_zero.mp hzero y hy
    | false =>
      rw [find?_cons_false hpa] at hf
      have hax : ¬ (a == x) = true := by
        intro hb
        have : a = x := by simpa using hb
        subst this
        have := List.find?_some hf
        rw [hpa] at this
        exact Bool.false_ne_true this
      rw [List.erase_cons_tail hax] at hy
      rcases List.mem_cons.mp hy with h3 | h3
      · rw [h3]; exact hpa
      · have hc2 : t.countP p ≤ 1 := by
          rw [List.countP_cons, hpa] at hc
          omega
        exact ih x hf hc2 y h3

lemma removeFromDLQ_ready (j : String) (st : RedisState) :
    (removeFromDLQ j st).ready = st.ready := by
  unfold removeFromDLQ
  cases st.dlq.find? (fun e => e.1.jobId == j) <;> rfl

/-- After removeFromDLQ, no member with the given job id remains, provided
the DLQ held at most one such member. -/
lemma removeFromDLQ_no_match (j : String) (st : RedisState)
    (hcount : st.dlq.countP (fun e => e.1.jobId == j) ≤ 1) :
    ∀ e ∈ (removeFromDLQ j st).dlq, e.1.jobId ≠ j := by
  intro e he
  unfold removeFromDLQ at he
  split at he
  next hf =>
    have := List.find?_eq_none.mp hf e he
    simpa using this
  next x hf =>
    have h2 : e ∈ st.dlq.erase x := he
    have := no_match_after_erase (fun y => y.1.jobId == j) st.dlq x hf hcount
      e h2
    simpa using this

/-- C10. Operator retry of a dead-letter entry creates a fresh job named
with the " (retry)" suffix, copying type, payload and priority and taking
schema defaults for maxRetries, retryDelay and webhookUrl; the new job is
enqueued to the ready index and set QUEUED, and both the DeadLetterJob row
and the Redis DLQ member of the original job id are removed. -/
theorem C10_dead_letter_retry :
    ∀ (now : Nat) (newJobId dlId : String) (st : DlState)
      (dl : DeadLetterJob),
    st.deadLetters.find? (fun d => d.id == dlId) = some dl →
    st.redis.dlq.countP (fun e => e.1.jobId == dl.originalJobId) ≤ 1 →
    ((DeadLetterService.retry now newJobId dlId st).1 =
      .ok { id := newJobId, name := dl.jobName ++ " (retry)",
            type := dl.jobType, payload := dl.jobPayload, status := .QUEUED,
            priority := dl.jobPriority, maxRetries := 3, retryCount := 0,
            retryDelay := 1000, scheduledAt := none, webhookUrl := none,
            workerId := none, scheduleId := none, result := none,
            error := none, startedAt := none, completedAt := none,
            createdAt := now } ∧
      (newJobId, calculateScore dl.jobPriority now) ∈
        (DeadLetterService.retry now newJobId dlId st).2.redis.ready ∧
      (∀ d ∈ (DeadLetterService.retry now newJobId dlId st).2.deadLetters,
        d.id ≠ dlId) ∧
      (∀ e ∈ (DeadLetterService.retry now newJobId dlId st).2.redis.dlq,
        e.1.jobId ≠ dl.originalJobId)) := by
  intro now newJobId dlId st dl hfind hcount
  unfold DeadLetterService.retry
  rw [hfind]
  refine ⟨rfl, ?_, ?_, ?_⟩
  · rw [removeFromDLQ_ready]
    simp [enqueue, zAdd, createJobRowWithDefaults, calculateScore]
  · intro d hd
    have := List.of_mem_filter hd
    simpa using this
  · intro e he
    exact removeFromDLQ_no_match dl.originalJobId
      (enqueue now
        (createJobRowWithDefaults newJobId now (dl.jobName ++ " (retry)")
          dl.jobType dl.jobPayload dl.jobPriority).id
        (createJobRowWithDefaults newJobId now (dl.jobName ++ " (retry)")
          dl.jobType dl.jobPayload dl.jobPriority).priority st.redis)
      hcount e he

/-- Witness for C10 on a concrete dead-letter entry. -/
theorem C10_dead_letter_retry_witness :
    ((DeadLetterService.retry 300 "job-2" "dl-1"
        ⟨[], [{ id := "dl-1", originalJobId := "job-1", jobName := "demo",
                jobType := "email.send", jobPayload := "payload",
                jobPriority := .NORMAL, failureReason := "boom",
                failureCount := 4, lastError := some "boom",
                errorStack := none, workerId := none,
                originalCreatedAt := 0 }],
          ⟨[], [], [], [(⟨"job-1", "boom", 99⟩, 99)]⟩⟩).1 =
      .ok { id := "job-2", name := "demo (retry)", type := "email.send",
            payload := "payload", status := .QUEUED, priority := .NORMAL,
            maxRetries := 3, retryCount := 0, retryDelay := 1000,
            scheduledAt := none, webhookUrl := none, workerId := none,
            scheduleId := none, result := none, error := none,
            startedAt := none, completedAt := none, createdAt := 300 } ∧
      ("job-2", calculateScore .NORMAL 300) ∈
        (DeadLetterService.retry 300 "job-2" "dl-1"
          ⟨[], [{ id := "dl-1", originalJobId := "job-1", jobName := "demo",
                  jobType := "email.send", jobPayload := "payload",
                  jobPriority := .NORMAL, failureReason := "boom",
                  failureCount := 4, lastError := some "boom",
                  errorStack := none, workerId := none,
                  originalCreatedAt := 0 }],
            ⟨[], [], [], [(⟨"job-1", "boom", 99⟩, 99)]⟩⟩).2.redis.ready ∧
      (∀ d ∈ (DeadLetterService.retry 300 "job-2" "dl-1"
          ⟨[], [{ id := "dl-1", originalJobId := "job-1", jobName := "demo",
                  jobType := "email.send", jobPayload := "payload",
                  jobPriority := .NORMAL, failureReason := "boom",
                  failureCount := 4, lastError := some "boom",
                  errorStack := none, workerId := none,
                  originalCreatedAt := 0 }],
            ⟨[], [], [], [(⟨"job-1", "boom", 99⟩, 99)]⟩⟩).2.deadLetters,
        d.id ≠ "dl-1") ∧
      (∀ e ∈ (DeadLetterService.retry 300 "job-2" "dl-1"
          ⟨[], [{ id := "dl-1", originalJobId := "job-1", jobName := "demo",
                  jobType := "email.send", jobPayload := "payload",
                  jobPriority := .NORMAL, failureReason := "boom",
                  failureCount := 4, lastError := some "boom",
                  errorStack := none, workerId := none,
                  originalCreatedAt := 0 }],
            ⟨[], [], [], [(⟨"job-1", "boom", 99⟩, 99)]⟩⟩).2.redis.dlq,
        e.1.jobId ≠ "job-1")) :=
  C10_dead_letter_retry 300 "job-2" "dl-1"
    ⟨[], [{ id := "dl-1", originalJobId := "job-1", jobName := "demo",
            jobType := "email.send", jobPayload := "payload",
            jobPriority := .NORMAL, failureReason := "boom",
            failureCount := 4, lastError := some "boom", errorStack := none,
            workerId := none, originalCreatedAt := 0 }],
      ⟨[], [], [], [(⟨"job-1", "boom", 99⟩, 99)]⟩⟩
    { id := "dl-1", originalJobId := "job-1", jobName := "demo",
      jobType := "email.send", jobPayload := "payload",
      jobPriority := .NORMAL, failureReason := "boom", failureCount := 4,
      lastError := some "boom", errorStack := none, workerId := none,
      originalCreatedAt := 0 }
    (by decide) (by decide)

/-- C9. After the executor processes a due schedule at wall time now --
including when job creation fails -- nextRunAt is updated to the next
firing of the cron expression in its timezone, strictly greater than now;
runCount is incremented and lastRunAt set only on the successful
job-creation path. -/
theorem C9_schedule_progress :
    ∀ (getNextRun : String → String → Nat → Option Nat) (createOk : Bool)
      (now : Nat) (newJobId : String) (st : ExecState),
    CronNextStrictlyAfter getNextRun →
    (getNextRun st.schedule.cronExpr st.schedule.timezone now).isSome →
    ((∀ n, (executeSchedule getNextRun createOk now newJobId
        st).schedule.nextRunAt = some n → now < n) ∧
      (executeSchedule getNextRun createOk now newJobId
        st).schedule.nextRunAt.isSome ∧
      (executeSchedule getNextRun createOk now newJobId
        st).schedule.runCount =
        (if createOk then st.schedule.runCount + 1 else st.schedule.runCount) ∧
      (createOk = true →
        (executeSchedule getNextRun createOk now newJobId
          st).schedule.lastRunAt = some now) ∧
      (createOk = false →
        (executeSchedule getNextRun createOk now newJobId
          st).schedule.lastRunAt = st.schedule.lastRunAt)) := by
  intro g createOk now newJobId st hstrict hsome
  cases createOk with
  | true =>
    refine ⟨?_, ?_, ?_, ?_, ?_⟩
    · intro n hn
      simp only [executeSchedule, if_true] at hn
      exact hstrict _ _ _ _ hn
    · simpa [executeSchedule] using hsome
    · simp [executeSchedule]
    · intro _; simp [executeSchedule]
    · intro h; exact absurd h (by simp)
  | false =>
    refine ⟨?_, ?_, ?_, ?_, ?_⟩
    · intro n hn
      simp only [executeSchedule, if_false, Bool.false_eq_true] at hn
      exact hstrict _ _ _ _ hn
    · simpa [executeSchedule] using hsome
    · simp [executeSchedule]
    · intro h; exact absurd h (by simp)
    · intro _; simp [executeSchedule]

/-- A concrete schedule row used to witness C9. -/
def demoSchedule : Schedule where
  id := "sched-1"
  name := "daily"
  cronExpr := "0 0 * * *"
  timezone := "UTC"
  jobType := "email.send"
  jobPayload := "payload"
  jobPriority := .NORMAL
  enabled := true
  lastRunAt := none
  nextRunAt := some 400
  runCount := 7

/-- Witness for C9 at a concrete strictly-after cron evaluator, on both the
success and the failure path of job creation. -/
theorem C9_schedule_progress_witness :
    ((∀ n, (executeSchedule (fun _ _ t => some (t + 60000)) true 400 "job-9"
        ⟨demoSchedule, [], emptyRedis⟩).schedule.nextRunAt = some n →
        400 < n) ∧
      (executeSchedule (fun _ _ t => some (t + 60000)) true 400 "job-9"
        ⟨demoSchedule, [], emptyRedis⟩).schedule.nextRunAt.isSome ∧
      (executeSchedule (fun _ _ t => some (t + 60000)) true 400 "job-9"
        ⟨demoSchedule, [], emptyRedis⟩).schedule.runCount =
        (if true then demoSchedule.runCount + 1 else demoSchedule.runCount) ∧
      (true = true →
        (executeSchedule (fun _ _ t => some (t + 60000)) true 400 "job-9"
          ⟨demoSchedule, [], emptyRedis⟩).schedule.lastRunAt = some 400) ∧
      (true = false →
        (executeSchedule (fun _ _ t => some (t + 60000)) true 400 "job-9"
          ⟨demoSchedule, [], emptyRedis⟩).schedule.lastRunAt =
          demoSchedule.lastRunAt)) :=
  C9_schedule_progress (fun _ _ t => some (t + 60000)) true 400 "job-9"
    ⟨demoSchedule, [], emptyRedis⟩
    (fun _ _ t n h => by simp only [Option.some_inj] at h; omega) rfl

/-- Invariant maintained by every reachable webhook-event row. -/
def EventInv (e : WebhookEvent) : Prop :=
  ((e.status = .pending ∨ e.status = .retrying) →
    e.attempts < e.maxAttempts) ∧
  (e.status = .success →
    ∃ c, e.lastStatusCode = some c ∧ 200 ≤ c ∧ c < 300) ∧
  (e.status = .failed →
    e.maxAttempts ≤ e.attempts ∧ e.attempts ≤ e.maxAttempts + 1)

lemma markFailed_inv (now : Nat) (err : String) (sc : Option Nat)
    (e : WebhookEvent) (h : e.attempts ≤ e.maxAttempts) :
    EventInv (markFailed now err sc e) := by
  unfold markFailed EventInv
  by_cases hfin : e.maxAttempts ≤ e.attempts + 1 <;>
    simp [hfin] <;> omega

lemma executeWebhook_inv (now : Nat) (outcome : HttpOutcome)
    (e : WebhookEvent) (h : e.attempts ≤ e.maxAttempts) :
    EventInv (executeWebhook now outcome e).1 := by
  cases outcome with
  | response code text =>
    simp only [executeWebhook]
    by_cases hok : 200 ≤ code ∧ code ≤ 299
    · rw [if_pos hok]
      unfold markSuccess EventInv
      refine ⟨?_, ?_, ?_⟩ <;> simp
      exact ⟨hok.1, by omega⟩
    · rw [if_neg hok]
      exact markFailed_inv now _ (some code) e h
  | timeout => exact markFailed_inv now _ none e h
  | transportError m => exact markFailed_inv now m none e h

lemma reachable_inv : ∀ e, ReachableEvent e → EventInv e := by
  intro e h
  induction h with
  | dispatched now outcome jobId jobType url payload M =>
    exact executeWebhook_inv now outcome
      (createEvent jobId jobType url payload M) (by simp [createEvent])
  | retried b m now outcome e2 _ ih =>
    unfold retryStep
    by_cases hsel : (e2.status = .pending ∨ e2.status = .retrying) ∧
        e2.attempts < e2.maxAttempts ∧
        shouldRetry b m now e2.attempts e2.lastAttemptAt = true
    · rw [if_pos hsel]
      refine executeWebhook_inv now outcome _ ?_
      simp only [updateAttempt]
      omega
    · rw [if_neg hsel]
      exact ih

/-- C7 counterexample. With maxAttempts = 2 (the configuration range is
1..10), the failing dispatch leaves the event retrying with attempts = 1;
the retry processor then optimistically bumps attempts to 2 and the failed
send bumps it again, terminating with status failed and attempts = 3, not
attempts = maxAttempts exactly. -/
theorem C7_counterexample :
    (retryStep 5000 2 100000 (.response 500 "err")
      (dispatch 0 (.response 500 "err") "job-1" "email.send" "u" "p"
        2)).status = .failed ∧
    (retryStep 5000 2 100000 (.response 500 "err")
      (dispatch 0 (.response 500 "err") "job-1" "email.send" "u" "p"
        2)).attempts = 3 ∧
    (retryStep 5000 2 100000 (.response 500 "err")
      (dispatch 0 (.response 500 "err") "job-1" "email.send" "u" "p"
        2)).maxAttempts = 2 := by
  refine ⟨rfl, rfl, rfl⟩

/-- C7 amended. Every reachable webhook-event row satisfies: success
implies lastStatusCode in [200, 300); failed holds iff attempts have
reached maxAttempts and no attempt succeeded; and a terminally failed
event has attempts at most maxAttempts + 1 (the retry path counts the
optimistic increment and the failure increment of the same attempt). -/
theorem C7_amended_webhook_invariants :
    ∀ e, ReachableEvent e →
    ((e.status = .success →
        ∃ c, e.lastStatusCode = some c ∧ 200 ≤ c ∧ c < 300) ∧
      (e.status = .failed ↔
        (e.maxAttempts ≤ e.attempts ∧ e.status ≠ .success)) ∧
      (e.status = .failed → e.attempts ≤ e.maxAttempts + 1)) := by
  intro e h
  obtain ⟨h1, h2, h3⟩ := reachable_inv e h
  refine ⟨h2, ?_, fun hf => (h3 hf).2⟩
  constructor
  · intro hf
    exact ⟨(h3 hf).1, by rw [hf]; simp⟩
  · rintro ⟨hle, hns⟩
    cases hstat : e.status with
    | pending =>
      have := h1 (Or.inl hstat)
      omega
    | retrying =>
      have := h1 (Or.inr hstat)
      omega
    | success => exact absurd hstat hns
    | failed => rfl

/-- Witness for C7 amended at a concrete reachable event (a successful
first dispatch). -/
theorem C7_amended_webhook_invariants_witness :
    (((dispatch 0 (.response 200 "OK") "job-1" "email.send" "u" "p"
        3).status = .success →
      ∃ c, (dispatch 0 (.response 200 "OK") "job-1" "email.send" "u" "p"
        3).lastStatusCode = some c ∧ 200 ≤ c ∧ c < 300) ∧
      ((dispatch 0 (.response 200 "OK") "job-1" "email.send" "u" "p"
          3).status = .failed ↔
        ((dispatch 0 (.response 200 "OK") "job-1" "email.send" "u" "p"
            3).maxAttempts ≤
          (dispatch 0 (.response 200 "OK") "job-1" "email.send" "u" "p"
            3).attempts ∧
          (dispatch 0 (.response 200 "OK") "job-1" "email.send" "u" "p"
            3).status ≠ .success)) ∧
      ((dispatch 0 (.response 200 "OK") "job-1" "email.send" "u" "p"
          3).status = .failed →
        (dispatch 0 (.response 200 "OK") "job-1" "email.send" "u" "p"
          3).attempts ≤
        (dispatch 0 (.response 200 "OK") "job-1" "email.send" "u" "p"
          3).maxAttempts + 1)) :=
  C7_amended_webhook_invariants _
    (ReachableEvent.dispatched 0 (.response 200 "OK") "job-1" "email.send"
      "u" "p" 3)

end TaskScheduler
